import Mathlib

/-! A shallow embedding of `setAudioFormat.c`.

The program resolves the default output device, reads the command line with
`getopt_long`, and rewrites the physical stream format of the device.

* C values: `UInt32` fields are natural numbers and every `UInt32` operation is
  reduced modulo `2 ^ 32`; `long` is an integer clamped to 64 bits by `strtol`;
  `Float64` is the IEEE 754 binary64 bit pattern, with the comparisons the
  program uses (`> 0`, `<= 0`, `!=`) defined on the bit pattern.
* libc: `strtol` (base 10) and `strtod` follow ISO C in the "C" locale, which
  is the locale of a program that never calls `setlocale`.
* The command line is seen the way `main` sees it: as the successive results
  of `getopt_long` (the returned code together with `optarg`) before `-1`.
* The CoreAudio calls are answered by an `AudioHardware` record; every call,
  allocation and `printf`/`fprintf` is recorded, in order, in a trace.
* The buffer `format` points to is read as one `AudioStreamBasicDescription`,
  as the cast in the source does.
-/

namespace SetAudioFormat

/-! ## C values -/

/-- An IEEE 754 binary64 value, given by its 64-bit pattern. -/
structure Float64 where
  bits : Nat
deriving DecidableEq, Repr

namespace Float64

/-- The biased exponent field (11 bits). -/
def exponent (x : Float64) : Nat := (x.bits / 2 ^ 52) % 2 ^ 11

/-- The fraction field (52 bits). -/
def fraction (x : Float64) : Nat := x.bits % 2 ^ 52

/-- The sign bit. -/
def sign (x : Float64) : Nat := (x.bits / 2 ^ 63) % 2

/-- Not-a-number: exponent all ones and a non-zero fraction. -/
def isNaN (x : Float64) : Bool := x.exponent == 2047 && x.fraction != 0

/-- Positive or negative zero. -/
def isZero (x : Float64) : Bool := x.exponent == 0 && x.fraction == 0

/-- The constant `0.0`. -/
def zero : Float64 := ⟨0⟩

/-- A quiet NaN. -/
def nan : Float64 := ⟨0x7FF8000000000000⟩

/-- The C comparison `x > 0`: false on a NaN and on both zeros. -/
def gtZero (x : Float64) : Bool := !x.isNaN && !x.isZero && x.sign == 0

/-- The C comparison `x <= 0`: false on a NaN, true on both zeros. -/
def leZero (x : Float64) : Bool := !x.isNaN && (x.isZero || x.sign == 1)

/-- The C comparison `a != b`: true when either side is a NaN, false on two
zeros of any sign, and otherwise a comparison of the bit patterns. -/
def ne (a b : Float64) : Bool :=
  a.isNaN || b.isNaN || !(a.bits == b.bits || (a.isZero && b.isZero))

/-- Division of `n` by `d` rounded to the nearest integer, ties to even. -/
def roundNearestEven (n d : Nat) : Nat :=
  let q := n / d
  let r := n % d
  if 2 * r < d then q
  else if d < 2 * r then q + 1
  else if q % 2 = 0 then q else q + 1

/-- The number of binary digits of `n`, counted with at most `fuel` halvings. -/
def bitLengthAux : Nat → Nat → Nat
  | 0, _ => 0
  | fuel + 1, n => if n = 0 then 0 else bitLengthAux fuel (n / 2) + 1

/-- The integer part of the base-2 logarithm of `n` (0 for `n = 0`); `n`
halvings always suffice. -/
def ilog2 (n : Nat) : Nat := bitLengthAux n n - 1

/-- The binary64 value nearest to `± n / d` (`d > 0`), ties to even, with
gradual underflow and overflow to infinity. -/
def ofRatio (neg : Bool) (n d : Nat) : Float64 :=
  let s : Nat := if neg then 2 ^ 63 else 0
  if n = 0 then ⟨s⟩
  else
    let e0 : Int := (ilog2 n : Int) - (ilog2 d : Int)
    let below : Bool :=
      if 0 ≤ e0 then decide (n < d * 2 ^ e0.toNat) else decide (n * 2 ^ (-e0).toNat < d)
    let e : Int := if below then e0 - 1 else e0
    let ee : Int := if e < -1022 then -1022 else e
    let q : Int := ee - 52
    let m : Nat :=
      if 0 ≤ q then roundNearestEven n (d * 2 ^ q.toNat)
      else roundNearestEven (n * 2 ^ (-q).toNat) d
    let b : Nat := (ee + 1022).toNat * 2 ^ 52 + m
    if 0x7FF0000000000000 ≤ b then ⟨s + 0x7FF0000000000000⟩ else ⟨s + b⟩

end Float64

/-- The `(UInt32)` cast of a `long`. -/
def toUInt32 (x : Int) : Nat := (x % 2 ^ 32).toNat

/-- The character `*p` of a C string held as the list of its characters before
the terminating NUL. -/
def deref (p : List Char) : Char := p.headD (Char.ofNat 0)

/-! ## libc -/

/-- The function `isspace` in the "C" locale. -/
def isspace (c : Char) : Bool := c.toNat == 32 || (9 ≤ c.toNat && c.toNat ≤ 13)

/-- The function `isdigit`. -/
def isdigit (c : Char) : Bool := 48 ≤ c.toNat && c.toNat ≤ 57

/-- The function `isxdigit`. -/
def isxdigit (c : Char) : Bool :=
  isdigit c || (65 ≤ c.toNat && c.toNat ≤ 70) || (97 ≤ c.toNat && c.toNat ≤ 102)

/-- The function `isalnum` in the "C" locale. -/
def isalnum (c : Char) : Bool :=
  isdigit c || (65 ≤ c.toNat && c.toNat ≤ 90) || (97 ≤ c.toNat && c.toNat ≤ 122)

/-- The code of `tolower c` in the "C" locale. -/
def lowerCode (c : Char) : Nat :=
  if 65 ≤ c.toNat ∧ c.toNat ≤ 90 then c.toNat + 32 else c.toNat

/-- The value of a hexadecimal digit. -/
def xdigitValue (c : Char) : Nat :=
  if isdigit c then c.toNat - 48
  else if 97 ≤ c.toNat then c.toNat - 87 else c.toNat - 55

/-- The number written by a run of decimal digits. -/
def decimalValue (ds : List Char) : Nat :=
  ds.foldl (fun acc d => acc * 10 + (d.toNat - 48)) 0

/-- The number written by a run of hexadecimal digits. -/
def hexValue (ds : List Char) : Nat :=
  ds.foldl (fun acc d => acc * 16 + xdigitValue d) 0

/-- An optional sign: whether it is a minus, and what follows it. -/
def takeSign : List Char → Bool × List Char
  | '-' :: t => (true, t)
  | '+' :: t => (false, t)
  | s => (false, s)

def LONG_MAX : Int := 2 ^ 63 - 1

def LONG_MIN : Int := -(2 ^ 63)

/-- The call `strtol(nptr, &endptr, 10)` with a 64-bit `long`: the value
returned and the string `endptr` is left pointing to. White space is skipped,
one sign is taken, then the longest run of digits; without a digit nothing is
converted, the value is 0 and `endptr` is `nptr`; a value out of range is
clamped. -/
def strtol (nptr : List Char) : Int × List Char :=
  let sgn := takeSign (nptr.dropWhile isspace)
  let ds := sgn.2.takeWhile isdigit
  if ds = [] then (0, nptr)
  else
    let v : Int := decimalValue ds
    (if sgn.1 then max (-v) LONG_MIN else min v LONG_MAX, sgn.2.dropWhile isdigit)

/-- An exponent part introduced by the letter with lower-case code `letter`:
the letter, an optional sign and at least one decimal digit. Gives the
exponent and the rest; when the part is absent or has no digit, the exponent
is 0 and nothing is taken. -/
def takeExponent (letter : Nat) (s : List Char) : Int × List Char :=
  match s with
  | [] => (0, s)
  | c :: t =>
    if lowerCode c = letter then
      let sgn := takeSign t
      let ds := sgn.2.takeWhile isdigit
      if ds = [] then (0, s)
      else
        let v : Int := decimalValue ds
        (if sgn.1 then -v else v, sgn.2.dropWhile isdigit)
    else (0, s)

/-- A fractional part: a point and the digits (accepted by `digit`) after it.
Gives the digits and the rest. -/
def takeFraction (digit : Char → Bool) (s : List Char) : List Char × List Char :=
  match s with
  | '.' :: t => (t.takeWhile digit, t.dropWhile digit)
  | _ => ([], s)

/-- The scaled value `± mant * base ^ e` rounded to binary64. -/
def scaled (neg : Bool) (mant base : Nat) (e : Int) : Float64 :=
  if 0 ≤ e then Float64.ofRatio neg (mant * base ^ e.toNat) 1
  else Float64.ofRatio neg mant (base ^ (-e).toNat)

/-- A decimal floating constant: digits with an optional point, at least one
digit, and an optional exponent part. `none` when there is no digit. -/
def takeDecimal (neg : Bool) (s : List Char) : Option (Float64 × List Char) :=
  let ip := s.takeWhile isdigit
  let fr := takeFraction isdigit (s.dropWhile isdigit)
  if ip = [] ∧ fr.1 = [] then none
  else
    let ex := takeExponent 101 fr.2
    some (scaled neg (decimalValue (ip ++ fr.1)) 10 (ex.1 - fr.1.length), ex.2)

/-- A hexadecimal floating constant: `0x`, hexadecimal digits with an optional
point, at least one digit, and an optional binary exponent part. `none` when
the string does not start with one. -/
def takeHex (neg : Bool) (s : List Char) : Option (Float64 × List Char) :=
  match s with
  | '0' :: x :: t =>
    if lowerCode x = 120 then
      let ip := t.takeWhile isxdigit
      let fr := takeFraction isxdigit (t.dropWhile isxdigit)
      if ip = [] ∧ fr.1 = [] then none
      else
        let ex := takeExponent 112 fr.2
        some (scaled neg (hexValue (ip ++ fr.1)) 2 (ex.1 - 4 * fr.1.length), ex.2)
    else none
  | _ => none

/-- The optional `(n-char-sequence)` after `NAN`: the rest after the closing
parenthesis, or the string itself when there is no well-formed sequence. -/
def takeNanChars (s : List Char) : List Char :=
  match s with
  | '(' :: t =>
    match t.dropWhile (fun c => isalnum c || c.toNat == 95) with
    | ')' :: r => r
    | _ => s
  | _ => s

/-- The call `strtod(nptr, &endptr)`: the value returned and the string
`endptr` is left pointing to. White space is skipped, one sign is taken, then
`INFINITY`, `INF`, `NAN` with an optional character sequence (all in any
case), a hexadecimal or a decimal floating constant; when none is there
nothing is converted, the value is 0 and `endptr` is `nptr`. -/
def strtod (nptr : List Char) : Float64 × List Char :=
  let sgn := takeSign (nptr.dropWhile isspace)
  let neg := sgn.1
  let s := sgn.2
  let s0 : Nat := if neg then 2 ^ 63 else 0
  if (s.take 8).map lowerCode = [105, 110, 102, 105, 110, 105, 116, 121] then
    (⟨s0 + 0x7FF0000000000000⟩, s.drop 8)
  else if (s.take 3).map lowerCode = [105, 110, 102] then
    (⟨s0 + 0x7FF0000000000000⟩, s.drop 3)
  else if (s.take 3).map lowerCode = [110, 97, 110] then
    (⟨s0 + Float64.nan.bits⟩, takeNanChars (s.drop 3))
  else
    match takeHex neg s with
    | some r => r
    | none =>
      match takeDecimal neg s with
      | some r => r
      | none => (Float64.zero, nptr)

/-! ## CoreAudio -/

/-- The property selectors the program names. -/
inductive AudioObjectPropertySelector where
  | kAudioHardwarePropertyDefaultOutputDevice
  | kAudioStreamPropertyPhysicalFormat
deriving DecidableEq, Repr

/-- The property scopes the program names. -/
inductive AudioObjectPropertyScope where
  | kAudioObjectPropertyScopeGlobal
  | kAudioObjectPropertyScopeOutput
deriving DecidableEq, Repr

/-- The property element the program names. -/
inductive AudioObjectPropertyElement where
  | kAudioObjectPropertyElementMain
deriving DecidableEq, Repr

structure AudioObjectPropertyAddress where
  mSelector : AudioObjectPropertySelector
  mScope : AudioObjectPropertyScope
  mElement : AudioObjectPropertyElement
deriving DecidableEq, Repr

/-- The record `AudioStreamBasicDescription` of CoreAudioTypes.h: a `Float64`
followed by eight `UInt32` fields. -/
structure AudioStreamBasicDescription where
  mSampleRate : Float64
  mFormatID : Nat
  mFormatFlags : Nat
  mBytesPerPacket : Nat
  mFramesPerPacket : Nat
  mBytesPerFrame : Nat
  mChannelsPerFrame : Nat
  mBitsPerChannel : Nat
  mReserved : Nat
deriving DecidableEq, Repr

def kAudioObjectSystemObject : Nat := 1

def noErr : Int := 0

/-- The answers of the OS audio subsystem and of the allocator to the calls of
one run, in the order the program makes them. What the device answers to the
write and to the read that follows it may depend on the blob submitted. -/
structure AudioHardware where
  /-- Status of the size query on the default output device property. -/
  defaultDeviceSizeStatus : Int
  /-- Size that query stores in `dataSize`. -/
  defaultDeviceDataSize : Nat
  /-- Status of the read of the default output device property. -/
  defaultDeviceStatus : Int
  /-- Device identifier that read stores in `defaultDevice`. -/
  defaultDevice : Nat
  /-- Status of the size query on the physical format property. -/
  formatSizeStatus : Int
  /-- Size that query stores in `dataSize`. -/
  formatDataSize : Nat
  /-- Whether `calloc` returns a non-null pointer. -/
  callocSucceeds : Bool
  /-- Status of the first read of the physical format. -/
  currentStatus : Int
  /-- Size the first read leaves in `dataSize`. -/
  currentDataSize : Nat
  /-- Contents of the buffer after the first read. -/
  current : AudioStreamBasicDescription
  /-- Status of the write of the blob. -/
  setStatus : AudioStreamBasicDescription → Int
  /-- Status of the read after the write. -/
  verifyStatus : AudioStreamBasicDescription → Int
  /-- Contents of the buffer after the read that follows the write. -/
  actual : AudioStreamBasicDescription → AudioStreamBasicDescription

/-! ## Traces -/

inductive Stream where
  | stdout
  | stderr
deriving DecidableEq, Repr

/-- An argument of a `printf` call after the format string. -/
inductive Arg where
  | str (s : String)
  | int (i : Int)
  | uint32 (n : Nat)
  | double (x : Float64)
deriving DecidableEq, Repr

/-- What a run does, call by call. `printf` is `fprintf` on `stdout`. -/
inductive Event where
  | AudioObjectGetPropertyDataSize (objectID : Nat) (address : AudioObjectPropertyAddress)
  | AudioObjectGetPropertyData (objectID : Nat) (address : AudioObjectPropertyAddress)
      (ioDataSize : Nat)
  | AudioObjectSetPropertyData (objectID : Nat) (address : AudioObjectPropertyAddress)
      (dataSize : Nat) (data : AudioStreamBasicDescription)
  | calloc (count size : Nat)
  | free
  | fprintf (stream : Stream) (format : String) (args : List Arg)
deriving DecidableEq, Repr

/-- A call to the OS audio subsystem. -/
def Event.isAudioCall : Event → Bool
  | .AudioObjectGetPropertyDataSize _ _ => true
  | .AudioObjectGetPropertyData _ _ _ => true
  | .AudioObjectSetPropertyData _ _ _ _ => true
  | _ => false

/-- A call on the physical format property; only `setStreamFormat` makes such
calls, and the first thing it does is to make one. -/
def Event.onStreamFormat : Event → Bool
  | .AudioObjectGetPropertyDataSize _ a => a.mSelector == .kAudioStreamPropertyPhysicalFormat
  | .AudioObjectGetPropertyData _ a _ => a.mSelector == .kAudioStreamPropertyPhysicalFormat
  | .AudioObjectSetPropertyData _ a _ _ => a.mSelector == .kAudioStreamPropertyPhysicalFormat
  | _ => false

/-- Something written to standard output. -/
def Event.onStdout : Event → Bool
  | .fprintf .stdout _ _ => true
  | _ => false

/-- A complete run of the program: what it did and its exit status. -/
structure Run where
  trace : List Event
  status : Int
deriving DecidableEq, Repr

/-! ## The program -/

/-- The function `print_usage`. -/
def print_usage (program_name : String) : List Event :=
  [ .fprintf .stdout "Usage: %s [OPTIONS]\n" [.str program_name],
    .fprintf .stdout "Set audio format parameters for the default output device.\n\n" [],
    .fprintf .stdout "Options:\n" [],
    .fprintf .stdout "  -r, --rate=RATE       Set the sample rate in KHz\n" [],
    .fprintf .stdout "  -b, --bits=BITS       Set the bit depth (Usually 16, 20, or 24)\n" [],
    .fprintf .stdout
      "  -c, --channels=NUM    Set the number of channels (Usually between 1 and 8, inclusive)\n" [],
    .fprintf .stdout "  -h, --help            Display this help message\n" [],
    .fprintf .stdout "\nExamples:\n" [],
    .fprintf .stdout "  %s --rate=44100 --bits=16 --channels=2\n" [.str program_name],
    .fprintf .stdout "  %s -r 48000 -b 24 -c 8\n" [.str program_name] ]

def defaultOutputDeviceAddress : AudioObjectPropertyAddress :=
  ⟨.kAudioHardwarePropertyDefaultOutputDevice, .kAudioObjectPropertyScopeGlobal,
    .kAudioObjectPropertyElementMain⟩

def streamFormatAddress : AudioObjectPropertyAddress :=
  ⟨.kAudioStreamPropertyPhysicalFormat, .kAudioObjectPropertyScopeOutput,
    .kAudioObjectPropertyElementMain⟩

/-- The function `getDefaultAudioDevice`: its trace, and either the device it
returns or the status it passes to `exit`. -/
def getDefaultAudioDevice (os : AudioHardware) : List Event × Except Int Nat :=
  let sizeQuery := Event.AudioObjectGetPropertyDataSize kAudioObjectSystemObject
    defaultOutputDeviceAddress
  if os.defaultDeviceSizeStatus ≠ noErr then
    ([sizeQuery,
      .fprintf .stderr "Error getting calling AudioObjectGetPropertyDataSize: %d\n"
        [.int os.defaultDeviceSizeStatus]], .error 1)
  else
    let dataQuery := Event.AudioObjectGetPropertyData kAudioObjectSystemObject
      defaultOutputDeviceAddress os.defaultDeviceDataSize
    if os.defaultDeviceStatus ≠ noErr then
      ([sizeQuery, dataQuery,
        .fprintf .stderr "Error getting default output device: %d\n"
          [.int os.defaultDeviceStatus]], .error 1)
    else ([sizeQuery, dataQuery], .ok os.defaultDevice)

/-- Lines 94 to 107 of `setStreamFormat`: the changes made to the buffer
between the read and the write. -/
def applyOverrides (format : AudioStreamBasicDescription) (sampleRate : Float64)
    (bitDepth channelCount : Nat) : AudioStreamBasicDescription :=
  let format := if sampleRate.gtZero then { format with mSampleRate := sampleRate } else format
  let format := if channelCount > 0 then { format with mChannelsPerFrame := channelCount }
    else format
  let format := { format with mBitsPerChannel := bitDepth }
  let format := { format with
    mBytesPerFrame :=
      ((format.mBitsPerChannel / 8) * format.mChannelsPerFrame % 2 ^ 32
        + format.mChannelsPerFrame) % 2 ^ 32 }
  { format with mBytesPerPacket := format.mBytesPerFrame * format.mFramesPerPacket % 2 ^ 32 }

def warn1 : String := "Warning: "

def warn2 : String :=
  " was not applied.\n   Value may be invalid for this device, or the device does not support the resulting format.\n"

def warn3 : String := "   Desired: "

def warn4 : String := ", Actual: "

/-- The warning on the sample rate. -/
def sampleRateWarning (sampleRate actual : Float64) : Event :=
  .fprintf .stdout "%sNew sample rate%s%s%.0f%s%.0f\n"
    [.str warn1, .str warn2, .str warn3, .double sampleRate, .str warn4, .double actual]

/-- The warning on the bit depth. -/
def bitDepthWarning (bitDepth actual : Nat) : Event :=
  .fprintf .stdout "%sNew bit depth%s%s%d%s%d\n"
    [.str warn1, .str warn2, .str warn3, .uint32 bitDepth, .str warn4, .uint32 actual]

/-- The warning on the channel count. -/
def channelCountWarning (channelCount actual : Nat) : Event :=
  .fprintf .stdout "%sNew channel count%s%s%d%s%d\n"
    [.str warn1, .str warn2, .str warn3, .uint32 channelCount, .str warn4, .uint32 actual]

/-- Lines 138 to 151 of `setStreamFormat`: the warnings printed after the
format has been read again into `format`. -/
def warnings (format : AudioStreamBasicDescription) (sampleRate : Float64)
    (bitDepth channelCount : Nat) : List Event :=
  (if sampleRate.gtZero && format.mSampleRate.ne sampleRate then
      [sampleRateWarning sampleRate format.mSampleRate] else [])
  ++ (if bitDepth > 0 ∧ format.mBitsPerChannel ≠ bitDepth then
      [bitDepthWarning bitDepth format.mBitsPerChannel] else [])
  ++ (if channelCount > 0 ∧ format.mChannelsPerFrame ≠ channelCount then
      [channelCountWarning channelCount format.mChannelsPerFrame] else [])

/-- The function `setStreamFormat`: its trace, and either its normal return or
the status it passes to `exit`. -/
def setStreamFormat (os : AudioHardware) (audioDevice : Nat) (sampleRate : Float64)
    (bitDepth channelCount : Nat) : List Event × Except Int Unit :=
  let sizeQuery := Event.AudioObjectGetPropertyDataSize audioDevice streamFormatAddress
  if os.formatSizeStatus ≠ noErr then
    ([sizeQuery,
      .fprintf .stderr "Error getting calling AudioObjectGetPropertyDataSize: %d\n"
        [.int os.formatSizeStatus]], .error 1)
  else
    let alloc := Event.calloc 1 os.formatDataSize
    if !os.callocSucceeds then
      ([sizeQuery, alloc,
        .fprintf .stderr "Failed to allocate memory for stream format\n" []], .error 1)
    else
      let read := Event.AudioObjectGetPropertyData audioDevice streamFormatAddress
        os.formatDataSize
      if os.currentStatus ≠ noErr then
        ([sizeQuery, alloc, read,
          .fprintf .stderr "Error getting current stream format for modification: %d\n"
            [.int os.currentStatus],
          .free], .error 1)
      else
        let format := applyOverrides os.current sampleRate bitDepth channelCount
        let write := Event.AudioObjectSetPropertyData audioDevice streamFormatAddress
          os.currentDataSize format
        if os.setStatus format ≠ noErr then
          ([sizeQuery, alloc, read, write,
            .fprintf .stderr "Error setting stream format: %d\n" [.int (os.setStatus format)],
            .free], .error 1)
        else
          let verify := Event.AudioObjectGetPropertyData audioDevice streamFormatAddress
            os.currentDataSize
          if os.verifyStatus format ≠ noErr then
            ([sizeQuery, alloc, read, write, verify,
              .fprintf .stderr "Error verifying stream format application: %d\n"
                [.int (os.verifyStatus format)],
              .free], .error 1)
          else
            ([sizeQuery, alloc, read, write, verify]
              ++ warnings (os.actual format) sampleRate bitDepth channelCount
              ++ [.free], .ok ())

/-- One result of `getopt_long` other than `-1`: the code returned and the
string `optarg` points to. -/
structure GetoptResult where
  c : Int
  optarg : List Char
deriving DecidableEq, Repr

/-- The integer value of a character constant. -/
def charCode (c : Char) : Int := c.toNat

/-- The locals `sampleRate`, `bitDepth` and `channelCount` of `main`. -/
structure Overrides where
  sampleRate : Float64
  bitDepth : Nat
  channelCount : Nat
deriving DecidableEq, Repr

/-- The initial values of the locals: all zero. -/
def Overrides.unset : Overrides := ⟨Float64.zero, 0, 0⟩

/-- The `while` loop of `main` from the locals `st` on, over the results
`getopt_long` still has to give: its trace, and either the locals when
`getopt_long` returns `-1` or the status `main` returns from inside the loop. -/
def optionLoop (program_name : String) :
    List GetoptResult → Overrides → List Event × Except Int Overrides
  | [], st => ([], .ok st)
  | o :: rest, st =>
    if o.c = charCode 'r' then
      let r := strtod o.optarg
      if deref r.2 ≠ Char.ofNat 0 ∨ r.1.leZero then
        ([.fprintf .stderr "Error: Sample rate must be a positive number\n" []], .error 1)
      else optionLoop program_name rest { st with sampleRate := r.1 }
    else if o.c = charCode 'b' then
      let r := strtol o.optarg
      if deref r.2 ≠ Char.ofNat 0 ∨ (r.1 ≠ 16 ∧ r.1 ≠ 20 ∧ r.1 ≠ 24) then
        ([.fprintf .stderr "Error: Bit depth must be 16, 20, or 24\n" []], .error 1)
      else optionLoop program_name rest { st with bitDepth := toUInt32 r.1 }
    else if o.c = charCode 'c' then
      let r := strtol o.optarg
      if deref r.2 ≠ Char.ofNat 0 ∨ (r.1 < 1 ∨ r.1 > 8) then
        ([.fprintf .stderr "Error: Channel count must be between 1 and 8, inclusive\n" []],
          .error 1)
      else optionLoop program_name rest { st with channelCount := toUInt32 r.1 }
    else if o.c = charCode 'h' ∨ o.c = charCode '?' then
      (print_usage program_name, .error 0)
    else (print_usage program_name, .error 1)

/-- The function `main`, on the program name `argv[0]` and the results of
`getopt_long` for the command line. -/
def main (os : AudioHardware) (program_name : String) (opts : List GetoptResult) : Run :=
  match getDefaultAudioDevice os with
  | (t0, .error status) => ⟨t0, status⟩
  | (t0, .ok defaultDevice) =>
    match optionLoop program_name opts Overrides.unset with
    | (t1, .error status) => ⟨t0 ++ t1, status⟩
    | (t1, .ok st) =>
      if st.sampleRate.gtZero ∨ st.bitDepth > 0 ∨ st.channelCount > 0 then
        match setStreamFormat os defaultDevice st.sampleRate st.bitDepth st.channelCount with
        | (t2, .error status) => ⟨t0 ++ t1 ++ t2, status⟩
        | (t2, .ok _) => ⟨t0 ++ t1 ++ t2, 0⟩
      else
        ⟨t0 ++ t1 ++ [.fprintf .stderr "No valid options provided.\n\n" []]
          ++ print_usage program_name, 1⟩

/-! ## Sample devices and command lines -/

/-- The sample rate 48000, as `strtod` returns it. -/
def rate48000 : Float64 := ⟨0x40E7700000000000⟩

/-- A stereo 24-bit linear PCM format at 44100 Hz. -/
def stereo24 : AudioStreamBasicDescription :=
  { mSampleRate := ⟨0x40E5888000000000⟩, mFormatID := 0x6C70636D, mFormatFlags := 12,
    mBytesPerPacket := 6, mFramesPerPacket := 1, mBytesPerFrame := 6,
    mChannelsPerFrame := 2, mBitsPerChannel := 24, mReserved := 0 }

/-- Device 73 in the format `current`: every call succeeds and the device takes
the blob it is given as it is. -/
def obedient (current : AudioStreamBasicDescription) : AudioHardware :=
  { defaultDeviceSizeStatus := 0, defaultDeviceDataSize := 4, defaultDeviceStatus := 0,
    defaultDevice := 73, formatSizeStatus := 0, formatDataSize := 40, callocSucceeds := true,
    currentStatus := 0, currentDataSize := 40, current := current,
    setStatus := fun _ => 0, verifyStatus := fun _ => 0, actual := fun blob => blob }

/-- Device 73 in the format `current`: every call succeeds, and the device
keeps its format whatever blob it is given. -/
def stubborn (current : AudioStreamBasicDescription) : AudioHardware :=
  { obedient current with actual := fun _ => current }

/-- The result of `getopt_long` for an option `-x arg`. -/
def opt (x : Char) (arg : String) : GetoptResult := ⟨charCode x, arg.toList⟩

/-! ## Lemmas -/

theorem Float64.bitLengthAux_eq (fuel n : Nat) (hn : n ≠ 0) (hfuel : n ≤ fuel) :
    Float64.bitLengthAux fuel n = Nat.log2 n + 1 := by
  induction fuel generalizing n with
  | zero => omega
  | succ fuel ih =>
    rw [Float64.bitLengthAux, if_neg hn]
    by_cases h2 : n / 2 = 0
    · have h1 : n = 1 := by omega
      subst h1
      cases fuel <;> simp [Float64.bitLengthAux, Nat.log2]
    · rw [ih (n / 2) h2 (by omega)]
      have hge : n ≥ 2 := by omega
      conv_rhs => rw [Nat.log2, if_pos hge]

/-- The count of halvings in `ilog2` never runs short: `ilog2` is `Nat.log2`. -/
theorem Float64.ilog2_eq (n : Nat) : Float64.ilog2 n = Nat.log2 n := by
  unfold Float64.ilog2
  by_cases hn : n = 0
  · subst hn
    simp [Float64.bitLengthAux, Nat.log2]
  · rw [Float64.bitLengthAux_eq n n hn (le_refl n)]
    rfl

theorem Float64.ne_iff_of_gtZero (a x : Float64) (hx : x.gtZero = true) :
    a.ne x = true ↔ a ≠ x := by
  have hbits : a ≠ x ↔ a.bits ≠ x.bits := by
    cases a; cases x; simp
  simp only [Float64.gtZero, Bool.and_eq_true, Bool.not_eq_true', beq_iff_eq] at hx
  obtain ⟨⟨hnan, hzero⟩, _⟩ := hx
  rw [hbits]
  simp only [Float64.ne, hnan, hzero, Bool.or_false, Bool.and_false, Bool.or_eq_true,
    Bool.not_eq_true', beq_eq_false_iff_ne, ne_eq]
  constructor
  · rintro (h | h)
    · intro hab
      have : a = x := by cases a; cases x; simp_all
      rw [this, hnan] at h
      exact Bool.noConfusion h
    · exact h
  · intro h
    exact Or.inr h

theorem optionLoop_trace_of_ok (name : String) (opts : List GetoptResult) (st st' : Overrides)
    (h : (optionLoop name opts st).2 = .ok st') : (optionLoop name opts st).1 = [] := by
  induction opts generalizing st with
  | nil => rfl
  | cons o rest ih =>
    simp only [optionLoop] at h ⊢
    split_ifs at h ⊢ <;> exact ih _ h

theorem optionLoop_append (name : String) (pre post : List GetoptResult) (st st' : Overrides)
    (h : (optionLoop name pre st).2 = .ok st') :
    optionLoop name (pre ++ post) st = optionLoop name post st' := by
  induction pre generalizing st with
  | nil =>
    simp only [optionLoop, Except.ok.injEq] at h
    simp [h]
  | cons o rest ih =>
    rw [List.cons_append]
    simp only [optionLoop] at h ⊢
    split_ifs at h ⊢ <;> exact ih _ h

theorem getDefaultAudioDevice_status (os : AudioHardware) (status : Int)
    (h : (getDefaultAudioDevice os).2 = .error status) : status = 1 := by
  unfold getDefaultAudioDevice at h
  split_ifs at h <;> simp_all

theorem getDefaultAudioDevice_onStreamFormat (os : AudioHardware) :
    ∀ e ∈ (getDefaultAudioDevice os).1, e.onStreamFormat = false := by
  unfold getDefaultAudioDevice
  split_ifs <;> simp [Event.onStreamFormat, defaultOutputDeviceAddress]

theorem print_usage_isAudioCall (name : String) :
    ∀ e ∈ print_usage name, e.isAudioCall = false := by
  simp [print_usage, Event.isAudioCall]

theorem optionLoop_isAudioCall (name : String) (opts : List GetoptResult) (st : Overrides) :
    ∀ e ∈ (optionLoop name opts st).1, e.isAudioCall = false := by
  induction opts generalizing st with
  | nil => simp [optionLoop]
  | cons o rest ih =>
    simp only [optionLoop]
    split_ifs <;>
      first
        | exact ih _
        | exact print_usage_isAudioCall name
        | simp [Event.isAudioCall]

theorem onStreamFormat_of_not_isAudioCall (e : Event) (h : e.isAudioCall = false) :
    e.onStreamFormat = false := by
  cases e <;> simp_all [Event.isAudioCall, Event.onStreamFormat]

theorem main_of_device_error (os : AudioHardware) (name : String) (opts : List GetoptResult)
    (status : Int) (h : (getDefaultAudioDevice os).2 = .error status) :
    main os name opts = ⟨(getDefaultAudioDevice os).1, 1⟩ := by
  have h1 := getDefaultAudioDevice_status os status h
  subst h1
  unfold main
  split
  · next t0 s heq => simp_all
  · next t0 d heq => simp_all

theorem main_of_loop_error (os : AudioHardware) (name : String) (opts : List GetoptResult)
    (dev : Nat) (t1 : List Event) (status : Int)
    (hdev : (getDefaultAudioDevice os).2 = .ok dev)
    (hloop : optionLoop name opts Overrides.unset = (t1, .error status)) :
    main os name opts = ⟨(getDefaultAudioDevice os).1 ++ t1, status⟩ := by
  unfold main
  split
  · next t0 s heq => simp_all
  · next t0 d heq => simp [hloop, heq]

theorem main_onStreamFormat_of_loop_error (os : AudioHardware) (name : String)
    (opts : List GetoptResult) (status : Int)
    (hloop : (optionLoop name opts Overrides.unset).2 = .error status) :
    ∀ e ∈ (main os name opts).trace, e.onStreamFormat = false := by
  have hdevTrace := getDefaultAudioDevice_onStreamFormat os
  have hloopTrace := optionLoop_isAudioCall name opts Overrides.unset
  cases hdev : (getDefaultAudioDevice os).2 with
  | error s =>
    rw [main_of_device_error os name opts s hdev]
    exact hdevTrace
  | ok dev =>
    rw [main_of_loop_error os name opts dev (optionLoop name opts Overrides.unset).1 status hdev
      (by rw [← hloop])]
    intro e he
    rcases List.mem_append.mp he with h | h
    · exact hdevTrace e h
    · exact onStreamFormat_of_not_isAudioCall e (hloopTrace e h)

theorem main_status_of_loop_error_one (os : AudioHardware) (name : String)
    (opts : List GetoptResult)
    (hloop : (optionLoop name opts Overrides.unset).2 = .error 1) :
    (main os name opts).status = 1 := by
  cases hdev : (getDefaultAudioDevice os).2 with
  | error s => rw [main_of_device_error os name opts s hdev]
  | ok dev =>
    rw [main_of_loop_error os name opts dev (optionLoop name opts Overrides.unset).1 1 hdev
      (by rw [← hloop])]

theorem optionLoop_bits_rejected (name : String) (arg : List Char) (post : List GetoptResult)
    (st : Overrides)
    (hbad : deref (strtol arg).2 ≠ Char.ofNat 0
      ∨ ((strtol arg).1 ≠ 16 ∧ (strtol arg).1 ≠ 20 ∧ (strtol arg).1 ≠ 24)) :
    (optionLoop name (⟨charCode 'b', arg⟩ :: post) st).2 = .error 1 := by
  have hr : charCode 'b' ≠ charCode 'r' := by decide
  simp only [optionLoop, hr, if_false, if_true, if_pos hbad]

theorem optionLoop_channels (name : String) (arg : List Char) (post : List GetoptResult)
    (st : Overrides) :
    optionLoop name (⟨charCode 'c', arg⟩ :: post) st =
      if deref (strtol arg).2 ≠ Char.ofNat 0 ∨ ((strtol arg).1 < 1 ∨ (strtol arg).1 > 8) then
        ([.fprintf .stderr "Error: Channel count must be between 1 and 8, inclusive\n" []],
          .error 1)
      else optionLoop name post { st with channelCount := toUInt32 (strtol arg).1 } := by
  have hr : charCode 'c' ≠ charCode 'r' := by decide
  have hb : charCode 'c' ≠ charCode 'b' := by decide
  simp only [optionLoop, hr, hb, if_false, if_true]

theorem optionLoop_usage (name : String) (c : Int) (arg : List Char) (post : List GetoptResult)
    (st : Overrides) (hc : c = charCode '?' ∨ c = charCode 'h') :
    optionLoop name (⟨c, arg⟩ :: post) st = (print_usage name, .error 0) := by
  have h1 : charCode '?' ≠ charCode 'r' ∧ charCode '?' ≠ charCode 'b'
      ∧ charCode '?' ≠ charCode 'c' := by decide
  have h2 : charCode 'h' ≠ charCode 'r' ∧ charCode 'h' ≠ charCode 'b'
      ∧ charCode 'h' ≠ charCode 'c' := by decide
  rcases hc with hc | hc <;> subst hc <;> simp [optionLoop, h1, h2]

theorem toUInt32_of_small (v : Int) (h1 : 0 ≤ v) (h2 : v < 2 ^ 32) : toUInt32 v = v.toNat := by
  unfold toUInt32
  rw [Int.emod_eq_of_lt h1 h2]

theorem main_of_no_override (os : AudioHardware) (name : String) (opts : List GetoptResult)
    (dev : Nat) (t1 : List Event) (st : Overrides)
    (hdev : (getDefaultAudioDevice os).2 = .ok dev)
    (hloop : optionLoop name opts Overrides.unset = (t1, .ok st))
    (hnone : ¬ (st.sampleRate.gtZero = true ∨ st.bitDepth > 0 ∨ st.channelCount > 0)) :
    main os name opts = ⟨(getDefaultAudioDevice os).1 ++ t1
      ++ [.fprintf .stderr "No valid options provided.\n\n" []] ++ print_usage name, 1⟩ := by
  unfold main
  split
  · next t0 s heq => simp_all
  · next t0 d heq => simp [hloop, heq, if_neg hnone]

theorem main_of_override (os : AudioHardware) (name : String) (opts : List GetoptResult)
    (dev : Nat) (t1 : List Event) (st : Overrides)
    (hdev : (getDefaultAudioDevice os).2 = .ok dev)
    (hloop : optionLoop name opts Overrides.unset = (t1, .ok st))
    (hsome : st.sampleRate.gtZero = true ∨ st.bitDepth > 0 ∨ st.channelCount > 0) :
    main os name opts =
      ⟨(getDefaultAudioDevice os).1 ++ t1
          ++ (setStreamFormat os dev st.sampleRate st.bitDepth st.channelCount).1,
        match (setStreamFormat os dev st.sampleRate st.bitDepth st.channelCount).2 with
        | .error status => status
        | .ok _ => 0⟩ := by
  unfold main
  split
  · next t0 s heq => simp_all
  · next t0 d heq =>
    have hd : d = dev := by simp_all
    subst hd
    simp only [hloop, if_pos hsome, heq]
    split <;> simp_all

theorem getDefaultAudioDevice_of_ok (os : AudioHardware) (dev : Nat)
    (h : (getDefaultAudioDevice os).2 = .ok dev) :
    getDefaultAudioDevice os =
      ([.AudioObjectGetPropertyDataSize kAudioObjectSystemObject defaultOutputDeviceAddress,
        .AudioObjectGetPropertyData kAudioObjectSystemObject defaultOutputDeviceAddress
          os.defaultDeviceDataSize], .ok dev) := by
  unfold getDefaultAudioDevice at h ⊢
  split_ifs at h ⊢
  simp_all

theorem setStreamFormat_of_read (os : AudioHardware) (dev : Nat) (sampleRate : Float64)
    (bitDepth channelCount : Nat) (hsize : os.formatSizeStatus = noErr)
    (halloc : os.callocSucceeds = true) (hread : os.currentStatus = noErr)
    (o : Nat) (a : AudioObjectPropertyAddress) (n : Nat) (b : AudioStreamBasicDescription) :
    Event.AudioObjectSetPropertyData o a n b
        ∈ (setStreamFormat os dev sampleRate bitDepth channelCount).1
      ↔ (o = dev ∧ a = streamFormatAddress ∧ n = os.currentDataSize
          ∧ b = applyOverrides os.current sampleRate bitDepth channelCount) := by
  simp only [setStreamFormat, hsize, halloc, hread, ne_eq, not_true_eq_false, if_false,
    Bool.not_true, Bool.false_eq_true]
  split_ifs <;> simp [warnings, sampleRateWarning, bitDepthWarning, channelCountWarning]

theorem setStreamFormat_of_success (os : AudioHardware) (dev : Nat) (sampleRate : Float64)
    (bitDepth channelCount : Nat) (hsize : os.formatSizeStatus = noErr)
    (halloc : os.callocSucceeds = true) (hread : os.currentStatus = noErr)
    (hset : os.setStatus (applyOverrides os.current sampleRate bitDepth channelCount) = noErr)
    (hverify :
      os.verifyStatus (applyOverrides os.current sampleRate bitDepth channelCount) = noErr) :
    setStreamFormat os dev sampleRate bitDepth channelCount =
      ([.AudioObjectGetPropertyDataSize dev streamFormatAddress,
        .calloc 1 os.formatDataSize,
        .AudioObjectGetPropertyData dev streamFormatAddress os.formatDataSize,
        .AudioObjectSetPropertyData dev streamFormatAddress os.currentDataSize
          (applyOverrides os.current sampleRate bitDepth channelCount),
        .AudioObjectGetPropertyData dev streamFormatAddress os.currentDataSize]
        ++ warnings (os.actual (applyOverrides os.current sampleRate bitDepth channelCount))
          sampleRate bitDepth channelCount
        ++ [.free], .ok ()) := by
  simp only [setStreamFormat, hsize, halloc, hread, hset, hverify, ne_eq, not_true_eq_false,
    if_false, Bool.not_true, Bool.false_eq_true]

theorem filter_onStdout_warnings (format : AudioStreamBasicDescription) (sampleRate : Float64)
    (bitDepth channelCount : Nat) :
    (warnings format sampleRate bitDepth channelCount).filter Event.onStdout
      = warnings format sampleRate bitDepth channelCount := by
  rw [List.filter_eq_self]
  intro e he
  simp only [warnings, List.mem_append] at he
  rcases he with (he | he) | he <;> split_ifs at he <;>
    simp_all [sampleRateWarning, bitDepthWarning, channelCountWarning, Event.onStdout]

theorem sampleRateWarning_mem_warnings (format : AudioStreamBasicDescription)
    (sampleRate : Float64) (bitDepth channelCount : Nat) :
    (∃ d a, sampleRateWarning d a ∈ warnings format sampleRate bitDepth channelCount)
      ↔ (sampleRate.gtZero = true ∧ format.mSampleRate.ne sampleRate = true) := by
  simp only [warnings, List.mem_append]
  constructor
  · rintro ⟨d, a, (h | h) | h⟩ <;> split_ifs at h with hc <;>
      simp_all [sampleRateWarning, bitDepthWarning, channelCountWarning]
  · intro h
    refine ⟨sampleRate, format.mSampleRate, Or.inl (Or.inl ?_)⟩
    simp [h]

theorem bitDepthWarning_mem_warnings (format : AudioStreamBasicDescription)
    (sampleRate : Float64) (bitDepth channelCount : Nat) :
    (∃ d a, bitDepthWarning d a ∈ warnings format sampleRate bitDepth channelCount)
      ↔ (bitDepth > 0 ∧ format.mBitsPerChannel ≠ bitDepth) := by
  simp only [warnings, List.mem_append]
  constructor
  · rintro ⟨d, a, (h | h) | h⟩ <;> split_ifs at h with hc <;>
      simp_all [sampleRateWarning, bitDepthWarning, channelCountWarning]
  · intro h
    refine ⟨bitDepth, format.mBitsPerChannel, Or.inl (Or.inr ?_)⟩
    simp [h]

theorem channelCountWarning_mem_warnings (format : AudioStreamBasicDescription)
    (sampleRate : Float64) (bitDepth channelCount : Nat) :
    (∃ d a, channelCountWarning d a ∈ warnings format sampleRate bitDepth channelCount)
      ↔ (channelCount > 0 ∧ format.mChannelsPerFrame ≠ channelCount) := by
  simp only [warnings, List.mem_append]
  constructor
  · rintro ⟨d, a, (h | h) | h⟩ <;> split_ifs at h with hc <;>
      simp_all [sampleRateWarning, bitDepthWarning, channelCountWarning]
  · intro h
    refine ⟨channelCount, format.mChannelsPerFrame, Or.inr ?_⟩
    simp [h]

/-! ## The option loop -/

/-- C4. When the option loop reaches a `-b`/`--bits` option after options that
were all accepted, and `strtol` does not consume the whole argument or its
value is not 16, 20 or 24, `main` exits with status 1 and its trace has no
call on the stream format: `setStreamFormat` is not invoked, whatever the
options before and after it and whatever the audio subsystem answers. -/
theorem bits_option_rejected (os : AudioHardware) (name : String)
    (pre post : List GetoptResult) (arg : List Char) (st : Overrides)
    (hpre : (optionLoop name pre Overrides.unset).2 = .ok st)
    (hbad : deref (strtol arg).2 ≠ Char.ofNat 0
      ∨ ((strtol arg).1 ≠ 16 ∧ (strtol arg).1 ≠ 20 ∧ (strtol arg).1 ≠ 24)) :
    (main os name (pre ++ ⟨charCode 'b', arg⟩ :: post)).status = 1
      ∧ ∀ e ∈ (main os name (pre ++ ⟨charCode 'b', arg⟩ :: post)).trace,
          e.onStreamFormat = false := by
  have hloop : (optionLoop name (pre ++ ⟨charCode 'b', arg⟩ :: post) Overrides.unset).2
      = .error 1 := by
    rw [optionLoop_append name pre _ _ st hpre]
    exact optionLoop_bits_rejected name arg post st hbad
  exact ⟨main_status_of_loop_error_one os name _ hloop,
    main_onStreamFormat_of_loop_error os name _ 1 hloop⟩

/-- Witness for C4: `-r 48000 -b 17 -c 2` on an obedient device. -/
theorem bits_option_rejected_witness :
    (main (obedient stereo24) "setAudioFormat"
        ([opt 'r' "48000"] ++ ⟨charCode 'b', "17".toList⟩ :: [opt 'c' "2"])).status = 1
      ∧ ∀ e ∈ (main (obedient stereo24) "setAudioFormat"
          ([opt 'r' "48000"] ++ ⟨charCode 'b', "17".toList⟩ :: [opt 'c' "2"])).trace,
          e.onStreamFormat = false :=
  bits_option_rejected (obedient stereo24) "setAudioFormat" [opt 'r' "48000"] [opt 'c' "2"]
    "17".toList ⟨rate48000, 0, 0⟩ rfl (by decide)

/-- C5. When the option loop reaches a `-c`/`--channels` option after options
that were all accepted: if `strtol` does not consume the whole argument or its
value is outside [1, 8], `main` exits with status 1 and its trace has no call
on the stream format (`setStreamFormat` is not invoked); if the whole argument
is consumed and the value is in [1, 8], the option is accepted, the loop goes
on to the next option and `channelCount` is that value. -/
theorem channels_option_checked (os : AudioHardware) (name : String)
    (pre post : List GetoptResult) (arg : List Char) (st : Overrides)
    (hpre : (optionLoop name pre Overrides.unset).2 = .ok st) :
    ((deref (strtol arg).2 ≠ Char.ofNat 0 ∨ (strtol arg).1 < 1 ∨ 8 < (strtol arg).1) →
      (main os name (pre ++ ⟨charCode 'c', arg⟩ :: post)).status = 1
        ∧ ∀ e ∈ (main os name (pre ++ ⟨charCode 'c', arg⟩ :: post)).trace,
            e.onStreamFormat = false)
    ∧ ((deref (strtol arg).2 = Char.ofNat 0 ∧ 1 ≤ (strtol arg).1 ∧ (strtol arg).1 ≤ 8) →
      optionLoop name (pre ++ ⟨charCode 'c', arg⟩ :: post) Overrides.unset
          = optionLoop name post { st with channelCount := ((strtol arg).1).toNat }
        ∧ optionLoop name (pre ++ [⟨charCode 'c', arg⟩]) Overrides.unset
          = ([], .ok { st with channelCount := ((strtol arg).1).toNat })) := by
  constructor
  · intro hbad
    have hloop : (optionLoop name (pre ++ ⟨charCode 'c', arg⟩ :: post) Overrides.unset).2
        = .error 1 := by
      rw [optionLoop_append name pre _ _ st hpre, optionLoop_channels, if_pos hbad]
    exact ⟨main_status_of_loop_error_one os name _ hloop,
      main_onStreamFormat_of_loop_error os name _ 1 hloop⟩
  · rintro ⟨hend, h1, h8⟩
    have hok : ¬ (deref (strtol arg).2 ≠ Char.ofNat 0
        ∨ ((strtol arg).1 < 1 ∨ (strtol arg).1 > 8)) := by
      rintro (h | h | h)
      · exact h hend
      · omega
      · omega
    have hcast : toUInt32 (strtol arg).1 = ((strtol arg).1).toNat :=
      toUInt32_of_small _ (by omega) (by omega)
    constructor
    · rw [optionLoop_append name pre _ _ st hpre, optionLoop_channels, if_neg hok, hcast]
    · rw [optionLoop_append name pre _ _ st hpre, optionLoop_channels, if_neg hok, hcast]
      rfl

/-- Witness for C5: after `-r 48000`, the argument `9` is rejected and the
argument `8` is accepted with `channelCount = 8`. -/
theorem channels_option_checked_witness :
    ((main (obedient stereo24) "setAudioFormat"
        ([opt 'r' "48000"] ++ ⟨charCode 'c', "9".toList⟩ :: [opt 'b' "24"])).status = 1
      ∧ ∀ e ∈ (main (obedient stereo24) "setAudioFormat"
          ([opt 'r' "48000"] ++ ⟨charCode 'c', "9".toList⟩ :: [opt 'b' "24"])).trace,
          e.onStreamFormat = false)
    ∧ optionLoop "setAudioFormat" ([opt 'r' "48000"] ++ [⟨charCode 'c', "8".toList⟩])
        Overrides.unset = ([], .ok ⟨rate48000, 0, 8⟩) :=
  ⟨(channels_option_checked (obedient stereo24) "setAudioFormat" [opt 'r' "48000"]
      [opt 'b' "24"] "9".toList ⟨rate48000, 0, 0⟩ rfl).1 (by decide),
   ((channels_option_checked (obedient stereo24) "setAudioFormat" [opt 'r' "48000"]
      [] "8".toList ⟨rate48000, 0, 0⟩ rfl).2 (by decide)).2⟩

/-- Counterexample to C9: when `getopt_long` returns `'?'` for the first
option, `main` prints the usage text and returns 0, not 1. -/
theorem unrecognized_option_status_zero :
    main (obedient stereo24) "setAudioFormat" [⟨charCode '?', []⟩]
        = ⟨(getDefaultAudioDevice (obedient stereo24)).1 ++ print_usage "setAudioFormat", 0⟩
      ∧ (main (obedient stereo24) "setAudioFormat" [⟨charCode '?', []⟩]).status ≠ 1 := by
  decide

/-- C9, amended. When the option loop reaches an unrecognized option
(`getopt_long` returns `'?'`) or `-h`/`--help` after options that were all
accepted, and the device resolver has succeeded, `main` prints the usage text
and exits with status 0 in both cases. -/
theorem usage_option_status_zero (os : AudioHardware) (name : String)
    (pre post : List GetoptResult) (c : Int) (arg : List Char) (st : Overrides) (dev : Nat)
    (hdev : (getDefaultAudioDevice os).2 = .ok dev)
    (hpre : (optionLoop name pre Overrides.unset).2 = .ok st)
    (hc : c = charCode '?' ∨ c = charCode 'h') :
    main os name (pre ++ ⟨c, arg⟩ :: post)
      = ⟨(getDefaultAudioDevice os).1 ++ print_usage name, 0⟩ := by
  apply main_of_loop_error os name _ dev (print_usage name) 0 hdev
  rw [optionLoop_append name pre _ _ st hpre]
  exact optionLoop_usage name c arg post st hc

/-- Witness for C9, amended: `-c 2` followed by an unrecognized option. -/
theorem usage_option_status_zero_witness :
    main (obedient stereo24) "setAudioFormat"
        ([opt 'c' "2"] ++ ⟨charCode '?', []⟩ :: [opt 'b' "24"])
      = ⟨(getDefaultAudioDevice (obedient stereo24)).1 ++ print_usage "setAudioFormat", 0⟩ :=
  usage_option_status_zero (obedient stereo24) "setAudioFormat" [opt 'c' "2"] [opt 'b' "24"]
    (charCode '?') [] ⟨Float64.zero, 0, 2⟩ 73 rfl rfl (Or.inl rfl)

/-! ## The order of device resolution and validation -/

/-- C10. When the device resolver has succeeded and the option loop ends on
`getopt_long` returning `-1` with `sampleRate`, `bitDepth` and `channelCount`
all still 0 (as on the empty command line), `main` writes
"No valid options provided." to the error stream, prints the usage text and
exits with status 1, and its trace has no call on the stream format
(`setStreamFormat` is not invoked). Conversely, on every run whose trace has
a call on the stream format, the option loop ended with at least one of the
three overrides greater than 0. -/
theorem no_override_run (os : AudioHardware) (name : String) (opts : List GetoptResult) :
    (∀ dev st, (getDefaultAudioDevice os).2 = .ok dev →
        (optionLoop name opts Overrides.unset).2 = .ok st →
        st.sampleRate = Float64.zero ∧ st.bitDepth = 0 ∧ st.channelCount = 0 →
        main os name opts = ⟨(getDefaultAudioDevice os).1
            ++ [.fprintf .stderr "No valid options provided.\n\n" []] ++ print_usage name, 1⟩
          ∧ ∀ e ∈ (main os name opts).trace, e.onStreamFormat = false)
      ∧ ((∃ e ∈ (main os name opts).trace, e.onStreamFormat = true) →
          ∃ st, (optionLoop name opts Overrides.unset).2 = .ok st
            ∧ (st.sampleRate.gtZero = true ∨ st.bitDepth > 0 ∨ st.channelCount > 0)) := by
  constructor
  · rintro dev st hdev hloop ⟨hr, hb, hc⟩
    have hnone : ¬ (st.sampleRate.gtZero = true ∨ st.bitDepth > 0 ∨ st.channelCount > 0) := by
      rw [hr, hb, hc]
      decide
    have ht := optionLoop_trace_of_ok name opts _ st hloop
    have hrun := main_of_no_override os name opts dev [] st hdev
      (by rw [← ht, ← hloop]) hnone
    rw [List.append_nil] at hrun
    refine ⟨hrun, ?_⟩
    rw [hrun]
    intro e he
    simp only [List.mem_append, List.mem_singleton] at he
    rcases he with (he | he) | he
    · exact getDefaultAudioDevice_onStreamFormat os e he
    · subst he
      rfl
    · exact onStreamFormat_of_not_isAudioCall e (print_usage_isAudioCall name e he)
  · rintro ⟨e, he, hfmt⟩
    cases hloop : (optionLoop name opts Overrides.unset).2 with
    | error status =>
      have := main_onStreamFormat_of_loop_error os name opts status hloop e he
      rw [this] at hfmt
      exact Bool.noConfusion hfmt
    | ok st =>
      refine ⟨st, rfl, ?_⟩
      by_contra hnone
      have ht := optionLoop_trace_of_ok name opts _ st hloop
      cases hdev : (getDefaultAudioDevice os).2 with
      | error s =>
        rw [main_of_device_error os name opts s hdev] at he
        have := getDefaultAudioDevice_onStreamFormat os e he
        rw [this] at hfmt
        exact Bool.noConfusion hfmt
      | ok dev =>
        rw [main_of_no_override os name opts dev [] st hdev (by rw [← ht, ← hloop]) hnone] at he
        simp only [List.mem_append, List.mem_singleton, List.append_nil] at he
        rcases he with (he | he) | he
        · have := getDefaultAudioDevice_onStreamFormat os e he
          rw [this] at hfmt
          exact Bool.noConfusion hfmt
        · subst he
          exact Bool.noConfusion hfmt
        · have := onStreamFormat_of_not_isAudioCall e (print_usage_isAudioCall name e he)
          rw [this] at hfmt
          exact Bool.noConfusion hfmt

/-- Witness for C10: the empty command line prints the message and the usage
text and exits 1; `-r 48000` reaches the stream format with a rate override. -/
theorem no_override_run_witness :
    main (obedient stereo24) "setAudioFormat" []
        = ⟨(getDefaultAudioDevice (obedient stereo24)).1
            ++ [.fprintf .stderr "No valid options provided.\n\n" []]
            ++ print_usage "setAudioFormat", 1⟩
      ∧ ∃ st, (optionLoop "setAudioFormat" [opt 'r' "48000"] Overrides.unset).2 = .ok st
          ∧ (st.sampleRate.gtZero = true ∨ st.bitDepth > 0 ∨ st.channelCount > 0) :=
  ⟨((no_override_run (obedient stereo24) "setAudioFormat" []).1 73 Overrides.unset rfl rfl
      ⟨rfl, rfl, rfl⟩).1,
   (no_override_run (obedient stereo24) "setAudioFormat" [opt 'r' "48000"]).2
      ⟨.AudioObjectGetPropertyDataSize 73 streamFormatAddress, by decide, rfl⟩⟩

/-! ## The format written and the warnings -/

/-- C3. Once the format has been read (the size query, the allocation and the
read succeed), `setStreamFormat` submits exactly one blob, to the device it
was given and on the physical format address; in it `mSampleRate` is the
rate override when that is > 0 and the value read otherwise,
`mChannelsPerFrame` is the channel override when that is > 0 and the value
read otherwise, and `mFramesPerPacket`, `mFormatID`, `mFormatFlags` and
`mReserved` are the values read. -/
theorem submitted_blob_frame (os : AudioHardware) (dev : Nat) (sampleRate : Float64)
    (bitDepth channelCount : Nat) (hsize : os.formatSizeStatus = noErr)
    (halloc : os.callocSucceeds = true) (hread : os.currentStatus = noErr) :
    ∃ blob : AudioStreamBasicDescription,
      (∀ o a n b, Event.AudioObjectSetPropertyData o a n b
            ∈ (setStreamFormat os dev sampleRate bitDepth channelCount).1
          ↔ (o = dev ∧ a = streamFormatAddress ∧ n = os.currentDataSize ∧ b = blob))
        ∧ blob.mSampleRate
            = (if sampleRate.gtZero = true then sampleRate else os.current.mSampleRate)
        ∧ blob.mChannelsPerFrame
            = (if channelCount > 0 then channelCount else os.current.mChannelsPerFrame)
        ∧ blob.mFramesPerPacket = os.current.mFramesPerPacket
        ∧ blob.mFormatID = os.current.mFormatID
        ∧ blob.mFormatFlags = os.current.mFormatFlags
        ∧ blob.mReserved = os.current.mReserved := by
  refine ⟨applyOverrides os.current sampleRate bitDepth channelCount,
    setStreamFormat_of_read os dev sampleRate bitDepth channelCount hsize halloc hread,
    ?_, ?_, ?_, ?_, ?_, ?_⟩ <;>
  · simp only [applyOverrides]
    split_ifs <;> rfl

/-- Witness for C3: a rate override of 48000 on a stereo 24-bit device. -/
theorem submitted_blob_frame_witness :
    ∃ blob : AudioStreamBasicDescription,
      (∀ o a n b, Event.AudioObjectSetPropertyData o a n b
            ∈ (setStreamFormat (obedient stereo24) 73 rate48000 0 0).1
          ↔ (o = 73 ∧ a = streamFormatAddress ∧ n = (obedient stereo24).currentDataSize
              ∧ b = blob))
        ∧ blob.mSampleRate
            = (if rate48000.gtZero = true then rate48000
                else (obedient stereo24).current.mSampleRate)
        ∧ blob.mChannelsPerFrame
            = (if 0 > 0 then 0 else (obedient stereo24).current.mChannelsPerFrame)
        ∧ blob.mFramesPerPacket = (obedient stereo24).current.mFramesPerPacket
        ∧ blob.mFormatID = (obedient stereo24).current.mFormatID
        ∧ blob.mFormatFlags = (obedient stereo24).current.mFormatFlags
        ∧ blob.mReserved = (obedient stereo24).current.mReserved :=
  submitted_blob_frame (obedient stereo24) 73 rate48000 0 0 rfl rfl rfl

/-- C2. Once the format has been read, the one blob `setStreamFormat` submits
has `mBytesPerFrame = (mBitsPerChannel / 8) * mChannelsPerFrame
+ mChannelsPerFrame` and `mBytesPerPacket = mBytesPerFrame * mFramesPerPacket`,
both modulo `2 ^ 32`, on its own (final) `mBitsPerChannel` and
`mChannelsPerFrame`; the final `mBitsPerChannel` is the bit depth passed in,
the final `mChannelsPerFrame` is the channel override when that is > 0 and the
value read otherwise, and `mFramesPerPacket` is the value read. With 16 bits
and 2 channels `mBytesPerFrame` is 6. -/
theorem submitted_blob_sizes (os : AudioHardware) (dev : Nat) (sampleRate : Float64)
    (bitDepth channelCount : Nat) (hsize : os.formatSizeStatus = noErr)
    (halloc : os.callocSucceeds = true) (hread : os.currentStatus = noErr) :
    ∃ blob : AudioStreamBasicDescription,
      (∀ o a n b, Event.AudioObjectSetPropertyData o a n b
            ∈ (setStreamFormat os dev sampleRate bitDepth channelCount).1
          ↔ (o = dev ∧ a = streamFormatAddress ∧ n = os.currentDataSize ∧ b = blob))
        ∧ blob.mBytesPerFrame
            = ((blob.mBitsPerChannel / 8) * blob.mChannelsPerFrame + blob.mChannelsPerFrame)
                % 2 ^ 32
        ∧ blob.mBytesPerPacket = (blob.mBytesPerFrame * blob.mFramesPerPacket) % 2 ^ 32
        ∧ blob.mBitsPerChannel = bitDepth
        ∧ blob.mChannelsPerFrame
            = (if channelCount > 0 then channelCount else os.current.mChannelsPerFrame)
        ∧ blob.mFramesPerPacket = os.current.mFramesPerPacket
        ∧ (blob.mBitsPerChannel = 16 → blob.mChannelsPerFrame = 2 → blob.mBytesPerFrame = 6) := by
  have hframe : (applyOverrides os.current sampleRate bitDepth channelCount).mBytesPerFrame
      = (((applyOverrides os.current sampleRate bitDepth channelCount).mBitsPerChannel / 8)
            * (applyOverrides os.current sampleRate bitDepth channelCount).mChannelsPerFrame
          + (applyOverrides os.current sampleRate bitDepth channelCount).mChannelsPerFrame)
        % 2 ^ 32 := by
    simp only [applyOverrides]
    split_ifs <;> simp only [Nat.add_mod, Nat.mod_mod]
  refine ⟨applyOverrides os.current sampleRate bitDepth channelCount,
    setStreamFormat_of_read os dev sampleRate bitDepth channelCount hsize halloc hread,
    hframe, ?_, ?_, ?_, ?_, ?_⟩
  · simp only [applyOverrides]
  · simp only [applyOverrides]
  · simp only [applyOverrides]
    split_ifs <;> rfl
  · simp only [applyOverrides]
    split_ifs <;> rfl
  · intro h16 h2
    rw [hframe, h16, h2]
    rfl

/-- Witness for C2: a bit depth of 16 with a channel override of 2 on a stereo
24-bit device. -/
theorem submitted_blob_sizes_witness :
    ∃ blob : AudioStreamBasicDescription,
      (∀ o a n b, Event.AudioObjectSetPropertyData o a n b
            ∈ (setStreamFormat (obedient stereo24) 73 Float64.zero 16 2).1
          ↔ (o = 73 ∧ a = streamFormatAddress ∧ n = (obedient stereo24).currentDataSize
              ∧ b = blob))
        ∧ blob.mBytesPerFrame
            = ((blob.mBitsPerChannel / 8) * blob.mChannelsPerFrame + blob.mChannelsPerFrame)
                % 2 ^ 32
        ∧ blob.mBytesPerPacket = (blob.mBytesPerFrame * blob.mFramesPerPacket) % 2 ^ 32
        ∧ blob.mBitsPerChannel = 16
        ∧ blob.mChannelsPerFrame
            = (if 2 > 0 then 2 else (obedient stereo24).current.mChannelsPerFrame)
        ∧ blob.mFramesPerPacket = (obedient stereo24).current.mFramesPerPacket
        ∧ (blob.mBitsPerChannel = 16 → blob.mChannelsPerFrame = 2 → blob.mBytesPerFrame = 6) :=
  submitted_blob_sizes (obedient stereo24) 73 Float64.zero 16 2 rfl rfl rfl

/-- C1, the code at a failing input. On `-r 48000` alone, with the device
reporting 24 bits per channel, `main` calls `setStreamFormat` with a bit depth
of 0 and the blob it submits has `mBitsPerChannel = 0`, not the 24 that was
read (and 2 bytes per frame and per packet in place of 6). -/
theorem rate_override_clears_bit_depth :
    stereo24.mBitsPerChannel = 24
      ∧ optionLoop "setAudioFormat" [opt 'r' "48000"] Overrides.unset
          = ([], .ok ⟨rate48000, 0, 0⟩)
      ∧ Event.AudioObjectSetPropertyData 73 streamFormatAddress 40
          { stereo24 with mSampleRate := rate48000, mBitsPerChannel := 0,
                          mBytesPerFrame := 2, mBytesPerPacket := 2 }
        ∈ (main (obedient stereo24) "setAudioFormat" [opt 'r' "48000"]).trace :=
  ⟨rfl, rfl, by decide⟩

/-- C6, the code at a failing input. `strtod` converts the whole of `nan` to a
NaN, which is not `<= 0`: `-r nan` is accepted, and on `-r nan -b 16` `main`
calls `setStreamFormat` with the NaN as its sample rate and exits with
status 0. -/
theorem nan_rate_reaches_setStreamFormat :
    strtod "nan".toList = (Float64.nan, [])
      ∧ Float64.nan.isNaN = true
      ∧ optionLoop "setAudioFormat" [opt 'r' "nan", opt 'b' "16"] Overrides.unset
          = ([], .ok ⟨Float64.nan, 16, 0⟩)
      ∧ main (obedient stereo24) "setAudioFormat" [opt 'r' "nan", opt 'b' "16"]
          = ⟨(getDefaultAudioDevice (obedient stereo24)).1
              ++ (setStreamFormat (obedient stereo24) 73 Float64.nan 16 0).1, 0⟩
      ∧ Event.AudioObjectSetPropertyData 73 streamFormatAddress 40
          { stereo24 with mBitsPerChannel := 16, mBytesPerFrame := 6, mBytesPerPacket := 6 }
        ∈ (main (obedient stereo24) "setAudioFormat" [opt 'r' "nan", opt 'b' "16"]).trace :=
  ⟨by decide, by decide, rfl, by decide, by decide⟩

/-- The part of C6 the code does: when the option loop reaches a `-r`/`--rate`
option after options that were all accepted, and `strtod` does not consume the
whole argument or its value is `<= 0`, `main` exits with status 1 and its
trace has no call on the stream format. -/
theorem rate_option_rejected (os : AudioHardware) (name : String)
    (pre post : List GetoptResult) (arg : List Char) (st : Overrides)
    (hpre : (optionLoop name pre Overrides.unset).2 = .ok st)
    (hbad : deref (strtod arg).2 ≠ Char.ofNat 0 ∨ (strtod arg).1.leZero = true) :
    (main os name (pre ++ ⟨charCode 'r', arg⟩ :: post)).status = 1
      ∧ ∀ e ∈ (main os name (pre ++ ⟨charCode 'r', arg⟩ :: post)).trace,
          e.onStreamFormat = false := by
  have hloop : (optionLoop name (pre ++ ⟨charCode 'r', arg⟩ :: post) Overrides.unset).2
      = .error 1 := by
    rw [optionLoop_append name pre _ _ st hpre]
    simp only [optionLoop, if_true, if_pos hbad]
  exact ⟨main_status_of_loop_error_one os name _ hloop,
    main_onStreamFormat_of_loop_error os name _ 1 hloop⟩

/-- C7. On a run in which the device resolver succeeds, the option loop ends
with at least one override > 0 (so `setStreamFormat` is called) and every call
in `setStreamFormat` succeeds (the size query, the allocation, the read, the
write and the read after it): `main` exits with status 0; a warning on the
sample rate is written to standard output exactly when the rate override is
> 0 and the sample rate read after the write differs from it, and likewise
for the bit depth and for the channel count; what the run writes to standard
output is these warnings and nothing else; when the three values read after
the write equal the three values asked for, nothing is written to standard
output. -/
theorem warnings_and_status (os : AudioHardware) (name : String) (opts : List GetoptResult)
    (dev : Nat) (st : Overrides)
    (hdev : (getDefaultAudioDevice os).2 = .ok dev)
    (hloop : (optionLoop name opts Overrides.unset).2 = .ok st)
    (hsome : st.sampleRate.gtZero = true ∨ st.bitDepth > 0 ∨ st.channelCount > 0)
    (hsize : os.formatSizeStatus = noErr) (halloc : os.callocSucceeds = true)
    (hread : os.currentStatus = noErr)
    (hset : os.setStatus
      (applyOverrides os.current st.sampleRate st.bitDepth st.channelCount) = noErr)
    (hverify : os.verifyStatus
      (applyOverrides os.current st.sampleRate st.bitDepth st.channelCount) = noErr) :
    (main os name opts).status = 0
      ∧ ((∃ d a, sampleRateWarning d a ∈ (main os name opts).trace)
          ↔ (st.sampleRate.gtZero = true
              ∧ (os.actual (applyOverrides os.current st.sampleRate st.bitDepth
                  st.channelCount)).mSampleRate ≠ st.sampleRate))
      ∧ ((∃ d a, bitDepthWarning d a ∈ (main os name opts).trace)
          ↔ (st.bitDepth > 0
              ∧ (os.actual (applyOverrides os.current st.sampleRate st.bitDepth
                  st.channelCount)).mBitsPerChannel ≠ st.bitDepth))
      ∧ ((∃ d a, channelCountWarning d a ∈ (main os name opts).trace)
          ↔ (st.channelCount > 0
              ∧ (os.actual (applyOverrides os.current st.sampleRate st.bitDepth
                  st.channelCount)).mChannelsPerFrame ≠ st.channelCount))
      ∧ (main os name opts).trace.filter Event.onStdout
          = warnings (os.actual (applyOverrides os.current st.sampleRate st.bitDepth
              st.channelCount)) st.sampleRate st.bitDepth st.channelCount
      ∧ (((os.actual (applyOverrides os.current st.sampleRate st.bitDepth
                st.channelCount)).mSampleRate = st.sampleRate
            ∧ (os.actual (applyOverrides os.current st.sampleRate st.bitDepth
                st.channelCount)).mBitsPerChannel = st.bitDepth
            ∧ (os.actual (applyOverrides os.current st.sampleRate st.bitDepth
                st.channelCount)).mChannelsPerFrame = st.channelCount) →
          (main os name opts).trace.filter Event.onStdout = []) := by
  have ht := optionLoop_trace_of_ok name opts _ st hloop
  have hrun := main_of_override os name opts dev [] st hdev (by rw [← ht, ← hloop]) hsome
  rw [setStreamFormat_of_success os dev st.sampleRate st.bitDepth st.channelCount hsize halloc
    hread hset hverify, getDefaultAudioDevice_of_ok os dev hdev] at hrun
  simp only [List.append_nil] at hrun
  generalize os.actual (applyOverrides os.current st.sampleRate st.bitDepth st.channelCount)
    = actual at hrun ⊢
  have hstdout : (main os name opts).trace.filter Event.onStdout
      = warnings actual st.sampleRate st.bitDepth st.channelCount := by
    rw [hrun]
    simp only [List.filter_append, filter_onStdout_warnings]
    simp [Event.onStdout]
  have hmem : ∀ e : Event, e.onStdout = true →
      (e ∈ (main os name opts).trace
        ↔ e ∈ warnings actual st.sampleRate st.bitDepth st.channelCount) := by
    intro e he
    rw [← hstdout, List.mem_filter]
    simp [he]
  refine ⟨by rw [hrun], ?_, ?_, ?_, hstdout, ?_⟩
  · rw [← sampleRateWarning_mem_warnings actual st.sampleRate st.bitDepth st.channelCount |>.trans
      (and_congr_right fun h => Float64.ne_iff_of_gtZero actual.mSampleRate st.sampleRate h)]
    exact exists_congr fun d => exists_congr fun a => hmem _ rfl
  · rw [← bitDepthWarning_mem_warnings actual st.sampleRate st.bitDepth st.channelCount]
    exact exists_congr fun d => exists_congr fun a => hmem _ rfl
  · rw [← channelCountWarning_mem_warnings actual st.sampleRate st.bitDepth st.channelCount]
    exact exists_congr fun d => exists_congr fun a => hmem _ rfl
  · rintro ⟨h1, h2, h3⟩
    rw [hstdout]
    simp only [warnings, h1, h2, h3, Float64.ne, ne_eq, not_true_eq_false, and_false, if_false,
      List.append_nil, beq_self_eq_true, Bool.true_or, Bool.not_true, Bool.or_false,
      Bool.or_self]
    rw [if_neg]
    intro h
    simp only [Float64.gtZero, Bool.and_eq_true, Bool.not_eq_true'] at h
    rw [h.2] at h
    exact Bool.noConfusion h.1.1.1

/-- Witness for C7: `-r 48000 -b 16 -c 2` on a device that keeps its stereo
24-bit format at 44100 Hz: the run exits 0 and writes the warnings on the
sample rate and on the bit depth, and none on the channel count. -/
theorem warnings_and_status_witness :
    (main (stubborn stereo24) "setAudioFormat"
        [opt 'r' "48000", opt 'b' "16", opt 'c' "2"]).status = 0
      ∧ (main (stubborn stereo24) "setAudioFormat"
          [opt 'r' "48000", opt 'b' "16", opt 'c' "2"]).trace.filter Event.onStdout
        = [sampleRateWarning rate48000 stereo24.mSampleRate, bitDepthWarning 16 24] :=
  have h := warnings_and_status (stubborn stereo24) "setAudioFormat"
    [opt 'r' "48000", opt 'b' "16", opt 'c' "2"] 73 ⟨rate48000, 16, 2⟩ rfl rfl
    (Or.inr (Or.inl (by decide))) rfl rfl rfl rfl rfl
  ⟨h.1, h.2.2.2.2.1.trans (by decide)⟩

end SetAudioFormat
